import Mathlib

/-!
Verification development for the resilient UniFi HTTP client subsystem
(`src/api/client.py`): the token-bucket rate limiter (`RateLimiter`), the
request pipeline with retry/backoff and error classification
(`UniFiClient._request`), and the authentication probe
(`UniFiClient.authenticate`).

The embedding is shallow: Python floats are modelled as rationals (ℚ),
Python ints as ℤ/ℕ, raised exceptions as explicit error values, and the
transport (httpx) as a function from the physical-attempt index to the
attempt's outcome.
-/

namespace UniFi

/-- JSON-like structured values, the possible results of Python's
`response.json()` (`json.loads`): null, booleans, numbers, strings,
arrays, and objects.  Object field lists are as produced by `json.loads`,
i.e. keys are distinct (the Python decoder builds a `dict`). -/
inductive Json where
  | null : Json
  | bool (b : Bool) : Json
  | num (q : ℚ) : Json
  | str (s : String) : Json
  | arr (elems : List Json) : Json
  | obj (fields : List (String × Json)) : Json

/-- Modelled from the spec: the closed typed-error taxonomy (§3, §7).
The exception classes (`APIError`, `AuthenticationError`, `NetworkError`,
`RateLimitError`, `ResourceNotFoundError`) are declared in
`src/utils/exceptions.py`, which is absent from the sources (only its
re-export in `src/utils/__init__.py` and its call sites are present);
their fields follow the spec's TypedError union:
AuthenticationFailure, RateLimited\x7bretryAfterSeconds\x7d,
ResourceNotFound\x7bkind, id\x7d, TransportFailure\x7bmessage\x7d,
GenericAPIFailure\x7bhttpStatus, parsedBody?\x7d, matched with the
constructor calls in `src/api/client.py`. -/
inductive TypedError where
  | apiError (message : String) (statusCode : Option Nat) (responseData : Option Json) : TypedError
  | authenticationError (message : String) : TypedError
  | networkError (message : String) : TypedError
  | rateLimitError (retryAfter : ℤ) : TypedError
  | resourceNotFoundError (kind : String) (id : String) : TypedError

/-- The configuration knobs of `Settings` consumed by the client
(`src/config/config.py` / `src/api/client.py`). -/
structure Settings where
  maxRetries : ℕ
  retryBackoffFactor : ℚ
  logApiRequests : Bool

/-- One HTTP response as observed by `_request`: the status code, the
`Retry-After` header lookup (`response.headers.get("Retry-After")`),
the body text (`response.text`), and the result of `response.json()`
(`none` models the decode raising, as `json.loads` does on an empty or
whitespace-only body). -/
structure Response where
  statusCode : ℕ
  retryAfterHeader : Option String
  text : String
  jsonR : Option Json

/-- Outcome of one physical transport call (`self.client.request`):
either a response, or a raised `httpx.TimeoutException`, or a raised
`httpx.NetworkError`. -/
inductive AttemptOutcome where
  | ok (r : Response) : AttemptOutcome
  | timeout (msg : String) : AttemptOutcome
  | netFail (msg : String) : AttemptOutcome

/-- Numeric value of a list of decimal digit characters. -/
def digitsVal (ds : List Char) : ℕ :=
  ds.foldl (fun a c => 10 * a + (c.toNat - 48)) 0

/-- Leading and trailing whitespace removed from a character list. -/
def stripWs (cs : List Char) : List Char :=
  ((cs.dropWhile Char.isWhitespace).reverse.dropWhile Char.isWhitespace).reverse

/-- Python's `int(s)` on a string: strip surrounding whitespace, allow one
optional sign, then require at least one decimal digit; `none` models the
raised `ValueError`.  (Digit-group underscores and non-ASCII digits,
which CPython also accepts, are not modelled; no claim depends on them.) -/
def pyInt (s : String) : Option ℤ :=
  match stripWs s.toList with
  | [] => none
  | c :: rest =>
    if c = '+' then
      if !rest.isEmpty && rest.all Char.isDigit then some (digitsVal rest) else none
    else if c = '-' then
      if !rest.isEmpty && rest.all Char.isDigit then some (-(digitsVal rest : ℤ)) else none
    else
      if (c :: rest).all Char.isDigit then some (digitsVal (c :: rest)) else none

/-- `int(response.headers.get("Retry-After", 60))` in `_request`:
when the header is absent, `headers.get` returns the default `60`
(already an int, so `int(60) = 60`); when present, the string is parsed
by `int`, and `none` models the `ValueError` escaping. -/
def retryAfterOf (r : Response) : Option ℤ :=
  match r.retryAfterHeader with
  | none => some 60
  | some s => pyInt s

/-- Result of one logical request: the decoded body, or a raised typed error. -/
inductive ReqOutcome where
  | success (v : Json) : ReqOutcome
  | failure (e : TypedError) : ReqOutcome

/-- Observable trace of one logical request: the result, the number of
physical transport attempts performed, and the sequence of sleep
durations (seconds) in order. -/
structure RunTrace where
  outcome : ReqOutcome
  attempts : ℕ
  sleeps : List ℚ

/-- `UniFiClient._request` (src/api/client.py lines 122-236) starting at a
given `retry_count`.  `tr k` is the outcome of the physical transport call
made with `retry_count = k`; `lf k` tells whether the `log_api_request`
call on that attempt raises (the hook's own code, `src/utils/logger.py`,
is absent from the sources, so its failure behaviour is a parameter).
Branches in source order: the logging hook, then status 429 (parse
`Retry-After`, sleep + recurse below `max_retries`, else
`RateLimitError`), 404 (`ResourceNotFoundError("resource", endpoint)`),
401/403 (`AuthenticationError`), other ≥ 400 (`APIError` with best-effort
parsed body), else `response.json()`; exceptions from `int(...)`, the
logging hook, or the body decode reach the final `except Exception`
catch-all, which raises `APIError("Unexpected error: ...")`. -/
def requestFrom (s : Settings) (tr : ℕ → AttemptOutcome) (lf : ℕ → Bool)
    (endpoint : String) (retryCount : ℕ) : RunTrace :=
  match tr retryCount with
  | .ok r =>
    if s.logApiRequests && lf retryCount then
      { outcome := .failure (.apiError "Unexpected error" none none),
        attempts := 1, sleeps := [] }
    else if r.statusCode = 429 then
      match retryAfterOf r with
      | none =>
        { outcome := .failure (.apiError "Unexpected error" none none),
          attempts := 1, sleeps := [] }
      | some ra =>
        if retryCount < s.maxRetries then
          let rest := requestFrom s tr lf endpoint (retryCount + 1)
          { outcome := rest.outcome, attempts := rest.attempts + 1,
            sleeps := (ra : ℚ) :: rest.sleeps }
        else
          { outcome := .failure (.rateLimitError ra), attempts := 1, sleeps := [] }
    else if r.statusCode = 404 then
      { outcome := .failure (.resourceNotFoundError "resource" endpoint),
        attempts := 1, sleeps := [] }
    else if r.statusCode = 401 ∨ r.statusCode = 403 then
      { outcome := .failure (.authenticationError ("Authentication failed: " ++ r.text)),
        attempts := 1, sleeps := [] }
    else if 400 ≤ r.statusCode then
      { outcome := .failure (.apiError ("API request failed: " ++ r.text)
          (some r.statusCode) r.jsonR),
        attempts := 1, sleeps := [] }
    else
      match r.jsonR with
      | some v => { outcome := .success v, attempts := 1, sleeps := [] }
      | none =>
        { outcome := .failure (.apiError "Unexpected error" none none),
          attempts := 1, sleeps := [] }
  | .timeout msg =>
    if retryCount < s.maxRetries then
      let rest := requestFrom s tr lf endpoint (retryCount + 1)
      { outcome := rest.outcome, attempts := rest.attempts + 1,
        sleeps := (s.retryBackoffFactor ^ retryCount) :: rest.sleeps }
    else
      { outcome := .failure (.networkError ("Request timeout: " ++ msg)),
        attempts := 1, sleeps := [] }
  | .netFail msg =>
    if retryCount < s.maxRetries then
      let rest := requestFrom s tr lf endpoint (retryCount + 1)
      { outcome := rest.outcome, attempts := rest.attempts + 1,
        sleeps := (s.retryBackoffFactor ^ retryCount) :: rest.sleeps }
    else
      { outcome := .failure (.networkError ("Network communication failed: " ++ msg)),
        attempts := 1, sleeps := [] }
termination_by s.maxRetries + 1 - retryCount
decreasing_by all_goals omega

/-- One logical request: `_request` entered with `retry_count = 0`. -/
def execute (s : Settings) (tr : ℕ → AttemptOutcome) (lf : ℕ → Bool)
    (endpoint : String) : RunTrace :=
  requestFrom s tr lf endpoint 0

example :
    execute ⟨0, 2, false⟩ (fun _ => .netFail "boom") (fun _ => false) "/x" =
      { outcome := .failure (.networkError "Network communication failed: boom"),
        attempts := 1, sleeps := [] } := by
  simp [execute, requestFrom]

example :
    (execute ⟨2, 2, false⟩ (fun _ => .netFail "boom") (fun _ => false) "/x").attempts = 3 := by
  simp [execute, requestFrom]

/-- Python's true division on floats/ints, modelled over ℚ: `none` is the
raised `ZeroDivisionError`. -/
def pyDiv (a b : ℚ) : Option ℚ :=
  if b = 0 then none else some (a / b)

/-- State of `RateLimiter` (src/api/client.py lines 21-53): the
constructor arguments and the current token count.  `last_update` is
factored out: each `acquire` call instead receives the elapsed wall time
`now - self.last_update` as an explicit argument. -/
structure RateLimiter where
  requests_per_period : ℤ
  period_seconds : ℤ
  tokens : ℚ

/-- `RateLimiter.__init__`: the bucket starts full
(`self.tokens = float(requests_per_period)`). -/
def RateLimiter.init (requestsPerPeriod periodSeconds : ℤ) : RateLimiter :=
  { requests_per_period := requestsPerPeriod,
    period_seconds := periodSeconds,
    tokens := (requestsPerPeriod : ℚ) }

/-- The refill assignment in `acquire` (src/api/client.py lines 40-46):
`self.tokens = min(self.requests_per_period,
self.tokens + time_passed * self.requests_per_period / self.period_seconds)`,
with `time_passed = now - self.last_update`.  `none` is a raised
`ZeroDivisionError`. -/
def RateLimiter.refilledTokens (st : RateLimiter) (timePassed : ℚ) : Option ℚ := do
  let refill ← pyDiv (timePassed * (st.requests_per_period : ℚ)) (st.period_seconds : ℚ)
  pure (min ((st.requests_per_period : ℚ)) (st.tokens + refill))

/-- `RateLimiter.acquire` (src/api/client.py lines 37-53) as one step:
refill the tokens, then either sleep
`(1 - tokens) * period_seconds / requests_per_period` and set `tokens = 0`,
or debit one token.  Returns the new state and the sleep duration
(`0` when no sleep happens); `none` is a raised `ZeroDivisionError`. -/
def RateLimiter.acquire (st : RateLimiter) (timePassed : ℚ) :
    Option (RateLimiter × ℚ) := do
  let tokens1 ← st.refilledTokens timePassed
  if tokens1 < 1 then
    let sleepTime ← pyDiv ((1 - tokens1) * (st.period_seconds : ℚ)) ((st.requests_per_period : ℚ))
    some ({ st with tokens := 0 }, sleepTime)
  else
    some ({ st with tokens := tokens1 - 1 }, 0)

/-- A sequence of `acquire` calls, one per elapsed-time entry; `none` as
soon as one call raises. -/
def RateLimiter.acquireSeq (st : RateLimiter) : List ℚ → Option RateLimiter
  | [] => some st
  | t :: ts =>
    match st.acquire t with
    | none => none
    | some (st1, _) => st1.acquireSeq ts

/-- Python `dict.get(key)` on a JSON object's fields: the stored value
when the key is present (even when that value is `None`), else `None`. -/
def dictGet (kvs : List (String × Json)) (key : String) : Option Json :=
  (kvs.find? (fun p => p.1 = key)).map Prod.snd

/-- `response.get("meta", \x7b\x7d).get("rc") == "ok"` in `authenticate`,
for the case where the `meta` value is itself a dict: equality with the
string `"ok"`. -/
def rcOkOf (mkvs : List (String × Json)) : Bool :=
  match dictGet mkvs "rc" with
  | some (.str s) => s == "ok"
  | _ => false

/-- `response.get("data") is not None` in `authenticate`: true when the
`data` key is present with a non-`None` value. -/
def dataPresent (kvs : List (String × Json)) : Bool :=
  match dictGet kvs "data" with
  | some .null => false
  | some _ => true
  | none => false

/-- The boolean assigned to `self._authenticated` in `authenticate`
(src/api/client.py lines 114-116):
`response.get("meta", \x7b\x7d).get("rc") == "ok" or
response.get("data") is not None`, with Python `dict.get` semantics
(the default is used only when the key is absent).  `none` models the
expression raising (`AttributeError`: `.get` on a non-dict value). -/
def authFlag (response : Json) : Option Bool :=
  match response with
  | .obj kvs =>
    match (dictGet kvs "meta").getD (.obj []) with
    | .obj mkvs => some (rcOkOf mkvs || dataPresent kvs)
    | _ => none
  | _ => none

/-- Result of `UniFiClient.authenticate`: normal return carrying the new
`_authenticated` flag, or a raised `AuthenticationError` wrapping its
cause (`none` when the cause was not a typed error, e.g. the
`AttributeError` from the flag expression). -/
inductive AuthResult where
  | ok (flag : Bool) : AuthResult
  | failed (cause : Option TypedError) : AuthResult

/-- `UniFiClient.authenticate` (src/api/client.py lines 105-120): one
logical GET against `/ea/sites`; on a decoded response, assign the flag;
any exception is caught and re-raised as `AuthenticationError("Failed to
authenticate with UniFi API: ...")` from the cause. -/
def authenticate (s : Settings) (tr : ℕ → AttemptOutcome) (lf : ℕ → Bool) : AuthResult :=
  match (execute s tr lf "/ea/sites").outcome with
  | .failure e => .failed (some e)
  | .success v =>
    match authFlag v with
    | some b => .ok b
    | none => .failed none

example :
    authenticate ⟨0, 2, false⟩
      (fun _ => .ok { statusCode := 200, retryAfterHeader := none,
                      text := "\x7b\x7d", jsonR := some (.obj []) })
      (fun _ => false) = .ok false := by
  simp [authenticate, execute, requestFrom, authFlag, dictGet, rcOkOf, dataPresent]

/-- The retryable-transient transport outcomes: a raised
`httpx.TimeoutException` or `httpx.NetworkError`. -/
def isTransient : AttemptOutcome → Bool
  | .timeout _ => true
  | .netFail _ => true
  | .ok _ => false

lemma requestFrom_transient_all (s : Settings) (tr : ℕ → AttemptOutcome) (lf : ℕ → Bool)
    (ep : String) (htr : ∀ k, isTransient (tr k) = true) :
    ∀ n k, s.maxRetries - k = n → k ≤ s.maxRetries →
      (requestFrom s tr lf ep k).attempts = s.maxRetries + 1 - k ∧
      (∃ msg, (requestFrom s tr lf ep k).outcome = .failure (.networkError msg)) ∧
      (requestFrom s tr lf ep k).sleeps =
        (List.range' k (s.maxRetries - k)).map (fun i => s.retryBackoffFactor ^ i) := by
  intro n
  induction n with
  | zero =>
    intro k hn hk
    have hke : ¬ k < s.maxRetries := by omega
    rw [requestFrom]
    rcases h : tr k with r | msg | msg
    · have := htr k; rw [h] at this; simp [isTransient] at this
    · simp [hke, hn]; omega
    · simp [hke, hn]; omega
  | succ n ih =>
    intro k hn hk
    have hklt : k < s.maxRetries := by omega
    obtain ⟨ha, ⟨msg0, ho⟩, hs⟩ := ih (k + 1) (by omega) (by omega)
    rw [requestFrom]
    rcases h : tr k with r | msg | msg
    · have := htr k; rw [h] at this; simp [isTransient] at this
    · refine ⟨?_, ⟨msg0, ?_⟩, ?_⟩ <;> simp [hklt, ha, ho, hs]
      · omega
      · have hrw : s.maxRetries - k = (s.maxRetries - (k + 1)) + 1 := by omega
        rw [hrw, List.range'_succ]
        simp
    · refine ⟨?_, ⟨msg0, ?_⟩, ?_⟩ <;> simp [hklt, ha, ho, hs]
      · omega
      · have hrw : s.maxRetries - k = (s.maxRetries - (k + 1)) + 1 := by omega
        rw [hrw, List.range'_succ]
        simp

/-- C3: with maxRetries = N and a transport that fails with a
retryable-transient error (timeout or connection failure) on every
attempt, `execute` performs exactly N + 1 physical transport attempts and
raises TransportFailure (`NetworkError`); no further attempts occur. -/
theorem c3_retry_bound (s : Settings) (tr : ℕ → AttemptOutcome) (lf : ℕ → Bool)
    (ep : String) (htr : ∀ k, isTransient (tr k) = true) :
    (execute s tr lf ep).attempts = s.maxRetries + 1 ∧
    ∃ msg, (execute s tr lf ep).outcome = .failure (.networkError msg) := by
  obtain ⟨ha, ho, _⟩ :=
    requestFrom_transient_all s tr lf ep htr s.maxRetries 0 (by omega) (by omega)
  exact ⟨by simpa using ha, ho⟩

/-- Witness for C3: maxRetries = 3 and an always-failing connection give
exactly 4 attempts and a raised `NetworkError`. -/
theorem c3_retry_bound_witness :
    (execute ⟨3, 2, false⟩ (fun _ => .netFail "conn") (fun _ => false) "/x").attempts = 3 + 1 ∧
    ∃ msg, (execute ⟨3, 2, false⟩ (fun _ => .netFail "conn") (fun _ => false) "/x").outcome =
      .failure (.networkError msg) :=
  c3_retry_bound ⟨3, 2, false⟩ (fun _ => .netFail "conn") (fun _ => false) "/x" (fun _ => rfl)

/-- C5: a retryable-transient failure on attempt k with k < maxRetries
sleeps `retryBackoffFactor ^ k` seconds before the next attempt; hence
with factor 2 an all-transient run sleeps 2^0, 2^1, 2^2, … seconds for
attempts 0, 1, 2, …. -/
theorem c5_backoff_growth (s : Settings) (tr : ℕ → AttemptOutcome) (lf : ℕ → Bool)
    (ep : String) :
    (∀ k msg, k < s.maxRetries → (tr k = .timeout msg ∨ tr k = .netFail msg) →
      (requestFrom s tr lf ep k).sleeps =
        s.retryBackoffFactor ^ k :: (requestFrom s tr lf ep (k + 1)).sleeps) ∧
    (s.retryBackoffFactor = 2 → (∀ k, isTransient (tr k) = true) →
      (execute s tr lf ep).sleeps = (List.range s.maxRetries).map (fun k => (2 : ℚ) ^ k)) := by
  constructor
  · intro k msg hk h
    rw [requestFrom]
    rcases h with h | h <;> rw [h] <;> simp [hk]
  · intro hf htr
    obtain ⟨_, _, hs⟩ :=
      requestFrom_transient_all s tr lf ep htr s.maxRetries 0 (by omega) (by omega)
    simpa [execute, List.range_eq_range', hf] using hs

/-- Witness for C5: factor 2, maxRetries = 3, always-failing connection:
the sleeps are 1s, 2s, 4s. -/
theorem c5_backoff_growth_witness :
    (execute ⟨3, 2, false⟩ (fun _ => .netFail "c") (fun _ => false) "/x").sleeps =
      (List.range 3).map (fun k => (2 : ℚ) ^ k) ∧
    (List.range 3).map (fun k => (2 : ℚ) ^ k) = [1, 2, 4] :=
  ⟨(c5_backoff_growth ⟨3, 2, false⟩ (fun _ => .netFail "c") (fun _ => false) "/x").2
      rfl (fun _ => rfl),
   by norm_num [List.range_succ]⟩

lemma refilledTokens_eq (st : RateLimiter) (t : ℚ) (hper : st.period_seconds ≠ 0) :
    st.refilledTokens t = some (min ((st.requests_per_period : ℚ))
      (st.tokens + t * (st.requests_per_period : ℚ) / (st.period_seconds : ℚ))) := by
  have hpq : ((st.period_seconds : ℚ)) ≠ 0 := by exact_mod_cast hper
  simp [RateLimiter.refilledTokens, pyDiv, hpq]

lemma acquire_step_bounds (st : RateLimiter) (t : ℚ)
    (hcap : 1 ≤ st.requests_per_period) (hper : 0 < st.period_seconds) :
    ∃ st1 sl, st.acquire t = some (st1, sl) ∧
      st1.requests_per_period = st.requests_per_period ∧
      st1.period_seconds = st.period_seconds ∧
      0 ≤ st1.tokens ∧ st1.tokens ≤ (st1.requests_per_period : ℚ) := by
  have hcz : (0 : ℤ) < st.requests_per_period := by omega
  have hcq : (0 : ℚ) < (st.requests_per_period : ℚ) := by exact_mod_cast hcz
  unfold RateLimiter.acquire
  rw [refilledTokens_eq st t hper.ne']
  simp only [Option.bind_eq_bind, Option.some_bind]
  by_cases hlt : min ((st.requests_per_period : ℚ))
      (st.tokens + t * (st.requests_per_period : ℚ) / (st.period_seconds : ℚ)) < 1
  · rw [if_pos hlt, pyDiv, if_neg hcq.ne']
    simp only [Option.bind_eq_bind, Option.some_bind]
    exact ⟨_, _, rfl, rfl, rfl, le_refl 0, hcq.le⟩
  · rw [if_neg hlt]
    have hge : (1 : ℚ) ≤ min ((st.requests_per_period : ℚ))
        (st.tokens + t * (st.requests_per_period : ℚ) / (st.period_seconds : ℚ)) :=
      not_lt.mp hlt
    have hle : min ((st.requests_per_period : ℚ))
        (st.tokens + t * (st.requests_per_period : ℚ) / (st.period_seconds : ℚ)) ≤
        (st.requests_per_period : ℚ) := min_le_left _ _
    refine ⟨_, _, rfl, rfl, rfl, ?_, ?_⟩
    · show (0 : ℚ) ≤ min ((st.requests_per_period : ℚ))
        (st.tokens + t * (st.requests_per_period : ℚ) / (st.period_seconds : ℚ)) - 1
      linarith
    · show min ((st.requests_per_period : ℚ))
        (st.tokens + t * (st.requests_per_period : ℚ) / (st.period_seconds : ℚ)) - 1 ≤
        (st.requests_per_period : ℚ)
      linarith

lemma acquireSeq_bounds (ts : List ℚ) :
    ∀ st : RateLimiter, 1 ≤ st.requests_per_period → 0 < st.period_seconds →
      0 ≤ st.tokens → st.tokens ≤ (st.requests_per_period : ℚ) →
      ∃ st1, st.acquireSeq ts = some st1 ∧
        st1.requests_per_period = st.requests_per_period ∧
        0 ≤ st1.tokens ∧ st1.tokens ≤ (st1.requests_per_period : ℚ) := by
  induction ts with
  | nil =>
    intro st h1 h2 h3 h4
    exact ⟨st, rfl, rfl, h3, h4⟩
  | cons t ts ih =>
    intro st h1 h2 h3 h4
    obtain ⟨st1, sl, hacq, hc, hp, hb0, hb1⟩ := acquire_step_bounds st t h1 h2
    obtain ⟨st2, hseq, hc2, hb2, hb3⟩ :=
      ih st1 (by rw [hc]; exact h1) (by rw [hp]; exact h2) hb0 (by rw [hc] at hb1 ⊢; exact hb1)
    refine ⟨st2, ?_, by rw [hc2, hc], hb2, hb3⟩
    simp [RateLimiter.acquireSeq, hacq, hseq]

/-- C6: with capacity ≥ 1 (and a positive period), the token count stays
within [0, capacity] at every point of every `acquire` sequence: the
refill assignment never raises the tokens above capacity or below zero,
and after each completed `acquire` the stored tokens are again within
[0, capacity] (every intermediate point of a longer run is the result of
some such sequence of calls). -/
theorem c6_token_bounds (cap period : ℤ) (hcap : 1 ≤ cap) (hper : 0 < period) :
    (∀ (st : RateLimiter) (t : ℚ), st.requests_per_period = cap →
      st.period_seconds = period → 0 ≤ t → 0 ≤ st.tokens → st.tokens ≤ (cap : ℚ) →
      ∃ v, st.refilledTokens t = some v ∧ 0 ≤ v ∧ v ≤ (cap : ℚ)) ∧
    (∀ ts : List ℚ, (∀ t ∈ ts, 0 ≤ t) →
      ∃ st1, (RateLimiter.init cap period).acquireSeq ts = some st1 ∧
        0 ≤ st1.tokens ∧ st1.tokens ≤ (cap : ℚ)) := by
  constructor
  · intro st t hc hp ht h0 h1
    have hper1 : st.period_seconds ≠ 0 := by omega
    rw [refilledTokens_eq st t hper1]
    have hcq : (0 : ℚ) ≤ (st.requests_per_period : ℚ) := by
      rw [hc]
      have hcz : (0 : ℤ) ≤ cap := by omega
      exact_mod_cast hcz
    have hpq : (0 : ℚ) < (st.period_seconds : ℚ) := by
      rw [hp]; exact_mod_cast hper
    have hrefill : 0 ≤ t * (st.requests_per_period : ℚ) / (st.period_seconds : ℚ) :=
      div_nonneg (mul_nonneg ht hcq) hpq.le
    refine ⟨_, rfl, le_min (by rw [hc] at hcq ⊢; exact hcq) (by linarith), ?_⟩
    rw [← hc]
    exact min_le_left _ _
  · intro ts _
    obtain ⟨st1, hseq, hc, hb0, hb1⟩ := acquireSeq_bounds ts (RateLimiter.init cap period)
      hcap hper (by
        show (0 : ℚ) ≤ ((cap : ℤ) : ℚ)
        have hcz : (0 : ℤ) ≤ cap := by omega
        exact_mod_cast hcz) (le_refl _)
    exact ⟨st1, hseq, hb0, by rw [hc] at hb1; exact hb1⟩

/-- Witness for C6: capacity 2, period 1, three back-to-back acquires. -/
theorem c6_token_bounds_witness :
    ∃ st1, (RateLimiter.init 2 1).acquireSeq [0, 0, 0] = some st1 ∧
      0 ≤ st1.tokens ∧ st1.tokens ≤ ((2 : ℤ) : ℚ) :=
  (c6_token_bounds 2 1 (by norm_num) (by norm_num)).2 [0, 0, 0] (by norm_num)

/-- C9: a limiter constructed with capacity 0 raises `ZeroDivisionError`
inside `acquire` (the wait computation divides by
`requests_per_period = 0`) instead of admitting or blocking the request,
while for any capacity ≥ 1 (and nonzero period) both divisions in
`acquire` are defined, so no call raises. -/
theorem c9_capacity_zero (period : ℤ) (t u : ℚ) (st : RateLimiter)
    (hcap : 1 ≤ st.requests_per_period) (hper : st.period_seconds ≠ 0) :
    (RateLimiter.init 0 period).acquire t = none ∧ (st.acquire u).isSome = true := by
  constructor
  · by_cases hp : ((period : ℚ)) = 0
    · simp [RateLimiter.acquire, RateLimiter.refilledTokens, RateLimiter.init, pyDiv, hp]
    · simp [RateLimiter.acquire, RateLimiter.refilledTokens, RateLimiter.init, pyDiv, hp]
  · have hcz : (0 : ℤ) < st.requests_per_period := by omega
    have hcq : (0 : ℚ) < (st.requests_per_period : ℚ) := by exact_mod_cast hcz
    unfold RateLimiter.acquire
    rw [refilledTokens_eq st u hper]
    simp only [Option.bind_eq_bind, Option.some_bind]
    by_cases hlt : min ((st.requests_per_period : ℚ))
        (st.tokens + u * (st.requests_per_period : ℚ) / (st.period_seconds : ℚ)) < 1
    · rw [if_pos hlt, pyDiv, if_neg hcq.ne']
      simp
    · rw [if_neg hlt]
      simp

/-- Witness for C9: capacity 0 raises; capacity 5, period 7 does not. -/
theorem c9_capacity_zero_witness :
    (RateLimiter.init 0 7).acquire 3 = none ∧
    ((RateLimiter.init 5 7).acquire 3).isSome = true :=
  c9_capacity_zero 7 3 3 (RateLimiter.init 5 7) (by norm_num [RateLimiter.init])
    (by norm_num [RateLimiter.init])

/-- C1 (code bug): on an otherwise-successful response whose body is
whitespace-only, `response.json()` raises, the decode error reaches the
`except Exception` catch-all, and `_request` raises
`APIError("Unexpected error: ...")` after one attempt — it does not
return an empty dictionary.  (`jsonR = none` models `json.loads` raising
on a whitespace-only body, exactly as the repository's own test
`tests/unit/test_api_client_empty_response.py` mocks it while calling
this behaviour "the current buggy behavior - should be fixed".) -/
theorem c1_empty_body_decode :
    "   \n\t  ".toList.all Char.isWhitespace = true ∧
    execute ⟨3, 2, false⟩
      (fun _ => .ok { statusCode := 200, retryAfterHeader := none,
                      text := "   \n\t  ", jsonR := none })
      (fun _ => false) "/ea/sites" =
      { outcome := .failure (.apiError "Unexpected error" none none),
        attempts := 1, sleeps := [] } := by
  constructor
  · decide
  · simp [execute, requestFrom]

/-- C2 counterexample: status 429 with `Retry-After: soon` (unparseable)
and `maxRetries = 5`.  The claim predicts a default wait of 60s, a sleep
and a retry; the code instead lets `int("soon")` raise `ValueError`,
which the catch-all converts to `APIError("Unexpected error")` after a
single attempt with no sleep. -/
theorem c2_counterexample :
    execute ⟨5, 2, false⟩
      (fun _ => .ok { statusCode := 429, retryAfterHeader := some "soon",
                      text := "", jsonR := none })
      (fun _ => false) "/x" =
      { outcome := .failure (.apiError "Unexpected error" none none),
        attempts := 1, sleeps := [] } := by
  have h : pyInt "soon" = none := by decide
  simp [execute, requestFrom, retryAfterOf, h]

/-- C2 as amended: on a 429 response the wait defaults to 60 only when
the header is absent; an unparseable header value raises
`GenericAPIFailure` (`APIError`) after that attempt, with no sleep and no
retry; a parsed wait `ra` gives `RateLimitError ra` after one attempt
when `maxRetries = 0`, and a sleep of `ra` followed by a retry when
`0 < maxRetries`. -/
theorem c2_amended (s : Settings) (tr : ℕ → AttemptOutcome) (lf : ℕ → Bool) (ep : String)
    (k : ℕ) (r : Response) (h0 : tr k = .ok r) (h429 : r.statusCode = 429)
    (hlog : (s.logApiRequests && lf k) = false) :
    (r.retryAfterHeader = none → retryAfterOf r = some 60) ∧
    (∀ hdr, r.retryAfterHeader = some hdr → pyInt hdr = none →
      requestFrom s tr lf ep k =
        { outcome := .failure (.apiError "Unexpected error" none none),
          attempts := 1, sleeps := [] }) ∧
    (∀ ra, retryAfterOf r = some ra → ¬ (k < s.maxRetries) →
      requestFrom s tr lf ep k =
        { outcome := .failure (.rateLimitError ra), attempts := 1, sleeps := [] }) ∧
    (∀ ra, retryAfterOf r = some ra → k < s.maxRetries →
      requestFrom s tr lf ep k =
        { outcome := (requestFrom s tr lf ep (k + 1)).outcome,
          attempts := (requestFrom s tr lf ep (k + 1)).attempts + 1,
          sleeps := (ra : ℚ) :: (requestFrom s tr lf ep (k + 1)).sleeps }) := by
  refine ⟨?_, ?_, ?_, ?_⟩
  · intro hnone
    simp [retryAfterOf, hnone]
  · intro hdr hh hp
    have hra : retryAfterOf r = none := by simp [retryAfterOf, hh, hp]
    rw [requestFrom, h0]
    simp [hlog, h429, hra]
  · intro ra hra hmax
    rw [requestFrom, h0]
    simp [hlog, h429, hra, hmax]
  · intro ra hra hmax
    rw [requestFrom, h0]
    simp [hlog, h429, hra, hmax]

/-- Witness for the amended C2: status 429, header missing,
maxRetries = 0 gives `RateLimitError 60` after exactly one attempt. -/
theorem c2_amended_witness :
    execute ⟨0, 2, false⟩
      (fun _ => .ok { statusCode := 429, retryAfterHeader := none, text := "", jsonR := none })
      (fun _ => false) "/x" =
      { outcome := .failure (.rateLimitError 60), attempts := 1, sleeps := [] } := by
  have h := c2_amended ⟨0, 2, false⟩
    (fun _ => .ok { statusCode := 429, retryAfterHeader := none, text := "", jsonR := none })
    (fun _ => false) "/x" 0
    { statusCode := 429, retryAfterHeader := none, text := "", jsonR := none }
    rfl rfl rfl
  exact h.2.2.1 60 (h.1 rfl) (by decide)

/-- C4: terminal status mapping, each after exactly one attempt with no
sleep and no retry: 404 raises `ResourceNotFoundError` with kind
`"resource"` and the request path as id; 401/403 raise
`AuthenticationError`; any other status ≥ 400 (and ≠ 429) raises
`APIError` carrying the status and the best-effort parsed body (`jsonR`,
which is `none` exactly when the error-body parse failed, without
changing the error kind). -/
theorem c4_status_mapping (s : Settings) (tr : ℕ → AttemptOutcome) (lf : ℕ → Bool)
    (ep : String) (k : ℕ) (r : Response) (h0 : tr k = .ok r)
    (hlog : (s.logApiRequests && lf k) = false) :
    (r.statusCode = 404 →
      requestFrom s tr lf ep k =
        { outcome := .failure (.resourceNotFoundError "resource" ep),
          attempts := 1, sleeps := [] }) ∧
    (r.statusCode = 401 ∨ r.statusCode = 403 →
      requestFrom s tr lf ep k =
        { outcome := .failure (.authenticationError ("Authentication failed: " ++ r.text)),
          attempts := 1, sleeps := [] }) ∧
    (400 ≤ r.statusCode → r.statusCode ≠ 429 → r.statusCode ≠ 404 →
     r.statusCode ≠ 401 → r.statusCode ≠ 403 →
      requestFrom s tr lf ep k =
        { outcome := .failure (.apiError ("API request failed: " ++ r.text)
            (some r.statusCode) r.jsonR),
          attempts := 1, sleeps := [] }) := by
  refine ⟨?_, ?_, ?_⟩
  · intro h404
    rw [requestFrom, h0]
    simp [hlog, h404]
  · intro hauth
    rw [requestFrom, h0]
    rcases hauth with h | h <;> simp [hlog, h]
  · intro hge h1 h2 h3 h4
    rw [requestFrom, h0]
    simp [hlog, h1, h2, h3, h4, hge]

/-- Witness for C4: status 404 on path "/widgets/abc" raises
`ResourceNotFoundError "resource" "/widgets/abc"` after one attempt. -/
theorem c4_status_mapping_witness :
    execute ⟨3, 2, false⟩
      (fun _ => .ok { statusCode := 404, retryAfterHeader := none, text := "nf", jsonR := none })
      (fun _ => false) "/widgets/abc" =
      { outcome := .failure (.resourceNotFoundError "resource" "/widgets/abc"),
        attempts := 1, sleeps := [] } :=
  (c4_status_mapping ⟨3, 2, false⟩
    (fun _ => .ok { statusCode := 404, retryAfterHeader := none, text := "nf", jsonR := none })
    (fun _ => false) "/widgets/abc" 0
    { statusCode := 404, retryAfterHeader := none, text := "nf", jsonR := none }
    rfl rfl).1 rfl

/-- C10: a success-status response whose body parses to a non-object
JSON value is returned unchanged by `_request` — no error, no coercion
to key/value form, despite the declared `dict` return type. -/
theorem c10_nonobject_passthrough (s : Settings) (tr : ℕ → AttemptOutcome) (lf : ℕ → Bool)
    (ep : String) (r : Response) (v : Json) (h0 : tr 0 = .ok r)
    (hlog : (s.logApiRequests && lf 0) = false) (hst : r.statusCode < 400)
    (hjson : r.jsonR = some v) (_hnotobj : ∀ kvs, v ≠ Json.obj kvs) :
    execute s tr lf ep = { outcome := .success v, attempts := 1, sleeps := [] } := by
  have h1 : r.statusCode ≠ 429 := by omega
  have h2 : r.statusCode ≠ 404 := by omega
  have h3 : r.statusCode ≠ 401 := by omega
  have h4 : r.statusCode ≠ 403 := by omega
  have h5 : ¬ (400 ≤ r.statusCode) := by omega
  rw [execute, requestFrom, h0]
  simp [hlog, h1, h2, h3, h4, h5, hjson]

/-- Witness for C10: status 200 with a JSON array body returns the array. -/
theorem c10_nonobject_passthrough_witness :
    execute ⟨3, 2, false⟩
      (fun _ => .ok { statusCode := 200, retryAfterHeader := none, text := "[]",
                      jsonR := some (.arr []) })
      (fun _ => false) "/x" =
      { outcome := .success (.arr []), attempts := 1, sleeps := [] } :=
  c10_nonobject_passthrough ⟨3, 2, false⟩
    (fun _ => .ok { statusCode := 200, retryAfterHeader := none, text := "[]",
                    jsonR := some (.arr []) })
    (fun _ => false) "/x"
    { statusCode := 200, retryAfterHeader := none, text := "[]", jsonR := some (.arr []) }
    (.arr []) rfl rfl (by norm_num) rfl (fun kvs => by simp)

/-- C8 (code bug): a raising structured-logging hook changes the outcome
of the attempt.  With `log_api_requests` enabled and a 200 response whose
body decodes to an object: when the hook raises, the exception reaches
the catch-all and `_request` raises `APIError("Unexpected error")`; when
the hook succeeds, the same response yields the decoded body.  The two
outcomes differ, so a logging failure masks the real outcome. -/
theorem c8_logging_masks_outcome :
    execute ⟨0, 2, true⟩
      (fun _ => .ok { statusCode := 200, retryAfterHeader := none,
                      text := "body", jsonR := some (.obj [("data", .arr [])]) })
      (fun _ => true) "/x" =
      { outcome := .failure (.apiError "Unexpected error" none none),
        attempts := 1, sleeps := [] } ∧
    execute ⟨0, 2, true⟩
      (fun _ => .ok { statusCode := 200, retryAfterHeader := none,
                      text := "body", jsonR := some (.obj [("data", .arr [])]) })
      (fun _ => false) "/x" =
      { outcome := .success (.obj [("data", .arr [])]), attempts := 1, sleeps := [] } := by
  constructor <;> simp [execute, requestFrom]

lemma rcOkOf_iff (mkvs : List (String × Json)) :
    rcOkOf mkvs = true ↔ dictGet mkvs "rc" = some (.str "ok") := by
  unfold rcOkOf
  rcases h : dictGet mkvs "rc" with _ | v
  · simp
  · rcases v with _ | b | q | s | xs | kv <;> simp

lemma dataPresent_iff (kvs : List (String × Json)) :
    dataPresent kvs = true ↔ ∃ v, dictGet kvs "data" = some v ∧ v ≠ Json.null := by
  unfold dataPresent
  rcases h : dictGet kvs "data" with _ | v
  · simp
  · rcases v with _ | b | q | s | xs | kv <;> simp

/-- C7 counterexample: the logical GET completes without raising (it
returns the decoded empty object), yet `authenticate` sets the
authenticated flag to `false`, not `true`: the flag is computed from the
response contents, not from mere success. -/
theorem c7_counterexample :
    (execute ⟨0, 2, false⟩
      (fun _ => .ok { statusCode := 200, retryAfterHeader := none,
                      text := "e", jsonR := some (.obj []) })
      (fun _ => false) "/ea/sites").outcome = .success (.obj []) ∧
    authenticate ⟨0, 2, false⟩
      (fun _ => .ok { statusCode := 200, retryAfterHeader := none,
                      text := "e", jsonR := some (.obj []) })
      (fun _ => false) = .ok false := by
  constructor
  · simp [execute, requestFrom]
  · simp [authenticate, execute, requestFrom, authFlag, dictGet, rcOkOf, dataPresent]

/-- C7 as amended: when the logical GET returns a decoded object (whose
`meta` entry, defaulted to the empty dict, is itself a dict),
`authenticate` returns normally and the flag is true exactly when
`meta.rc == "ok"` or the response has a non-null `data` entry; when the
request raises a typed error, `authenticate` raises
`AuthenticationError` wrapping that cause. -/
theorem c7_amended (s : Settings) (tr : ℕ → AttemptOutcome) (lf : ℕ → Bool) :
    (∀ kvs mkvs, (execute s tr lf "/ea/sites").outcome = .success (.obj kvs) →
      (dictGet kvs "meta").getD (.obj []) = .obj mkvs →
      ∃ b, authenticate s tr lf = .ok b ∧
        (b = true ↔ (dictGet mkvs "rc" = some (.str "ok") ∨
          ∃ v, dictGet kvs "data" = some v ∧ v ≠ Json.null))) ∧
    (∀ e, (execute s tr lf "/ea/sites").outcome = .failure e →
      authenticate s tr lf = .failed (some e)) := by
  constructor
  · intro kvs mkvs hout hmeta
    unfold authenticate
    rw [hout]
    simp only [authFlag, hmeta]
    refine ⟨rcOkOf mkvs || dataPresent kvs, rfl, ?_⟩
    rw [Bool.or_eq_true, rcOkOf_iff, dataPresent_iff]
  · intro e hout
    unfold authenticate
    rw [hout]

/-- Witness for the amended C7: a response carrying meta.rc = "ok"
authenticates with flag true. -/
theorem c7_amended_witness :
    authenticate ⟨0, 2, false⟩
      (fun _ => .ok { statusCode := 200, retryAfterHeader := none, text := "m",
                      jsonR := some (.obj [("meta", .obj [("rc", .str "ok")])]) })
      (fun _ => false) = .ok true := by
  obtain ⟨b, hb, hiff⟩ := (c7_amended ⟨0, 2, false⟩
      (fun _ => .ok { statusCode := 200, retryAfterHeader := none, text := "m",
                      jsonR := some (.obj [("meta", .obj [("rc", .str "ok")])]) })
      (fun _ => false)).1 [("meta", .obj [("rc", .str "ok")])] [("rc", .str "ok")]
      (by simp [execute, requestFrom]) (by rfl)
  have hbt : b = true := hiff.mpr (Or.inl (by rfl))
  rw [hbt] at hb
  exact hb

end UniFi
